import Mathlib

/-!
# usersapp: request dispatch, handlers and persistence layer

A shallow embedding of `usersapp/main.go` and `usersapp/models.go`.

* Go `error` values are `Option GoError` (`none` is `nil`); pointer and slice
  results are `Option` (`none` is `nil`).
* The five prepared statements are process-wide handles whose behaviour is
  decided by the store.  They are a record `Stmts σ` of state-passing
  functions over an arbitrary store state `σ`; a concrete table-backed
  instance is built from the SQL templates of the source.
* A handler threads the `http.ResponseWriter`, the server log and the store.
-/

namespace UsersApp

/-! ## Errors and the domain type -/

/-- Go error values that reach this program. -/
inductive GoError where
  /-- Value of `errors.New(text)`. -/
  | errorsNew (text : String)
  /-- A `*strconv.NumError` of `strconv.Atoi`: the input, and whether it is a
  range error (otherwise the input is not a number at all). -/
  | numError (num : String) (isRange : Bool)
  /-- An error produced outside this program: driver, store, body decoder. -/
  | external (text : String)
  deriving DecidableEq, Repr

/-- The struct `userModel` of `models.go`. -/
structure userModel where
  ID : Int
  Email : String
  Name : String
  deriving DecidableEq, Repr

deriving instance DecidableEq for Except

/-! ## strconv.Atoi -/

/-- ASCII decimal digit test, the `ch -= '0'; ch > 9` check of `Atoi`. -/
def isDecDigit (c : Char) : Bool := decide (48 ≤ c.toNat) && decide (c.toNat ≤ 57)

/-- Value of a run of decimal digits, most significant first. -/
def decValue (ds : List Char) : Nat :=
  ds.foldl (fun acc c => acc * 10 + (c.toNat - 48)) 0

/-- Sign and magnitude part of the input of `Atoi`. -/
def splitSign (cs : List Char) : Bool × List Char :=
  match cs with
  | '+' :: rest => (false, rest)
  | '-' :: rest => (true, rest)
  | _ => (false, cs)

/-- The function `strconv.Atoi` for a 64-bit `int`: an optional sign followed by
one or more decimal digits, within the range of `int`. -/
def Atoi (s : String) : Except GoError Int :=
  let (neg, ds) := splitSign s.toList
  if ds.isEmpty || !ds.all isDecDigit then
    .error (.numError s false)
  else
    let v : Int := if neg then -(decValue ds : Int) else (decValue ds : Int)
    if v < -9223372036854775808 ∨ 9223372036854775807 < v then
      .error (.numError s true)
    else
      .ok v

/-! ## database/sql values -/

/-- A `sql.Result`: only `RowsAffected` is used. -/
structure Result where
  RowsAffected : Except GoError Int
  deriving DecidableEq

/-- A `*sql.Rows` cursor, as the code uses it: the rows `Next` advances to, in
store order, each with the outcome `Scan` has on it. -/
abbrev Rows (α : Type) := List (Except GoError α)

/-- The five prepared statement handles (`createUserStmt` ... `deleteUserStmt`)
over a store with state `σ`. -/
structure Stmts (σ : Type) where
  /-- Behaviour of `createUserStmt.Exec(email, name)`. -/
  createUserStmt : String → String → σ → Except GoError Result × σ
  /-- Behaviour of `getUserStmt.Query(id)`; rows are `(email, name)`. -/
  getUserStmt : Int → σ → Except GoError (Rows (String × String)) × σ
  /-- Behaviour of `getUserListStmt.Query()`; rows are `(id, email, name)`. -/
  getUserListStmt : σ → Except GoError (Rows (Int × String × String)) × σ
  /-- Behaviour of `updateUserStmt.Exec(id, email, name)`. -/
  updateUserStmt : Int → String → String → σ → Except GoError Result × σ
  /-- Behaviour of `deleteUserStmt.Exec(arg)`. -/
  deleteUserStmt : String → σ → Except GoError Result × σ

/-! ## Persistence layer -/

variable {σ : Type}

/-- The function `createUser`. -/
def createUser (S : Stmts σ) (u : userModel) (s : σ) : Option GoError × σ :=
  match S.createUserStmt u.Email u.Name s with
  | (.error err, s1) => (some err, s1)
  | (.ok _, s1) => (none, s1)

/-- The function `getUser`: result is the pair `(*userModel, error)`. -/
def getUser (S : Stmts σ) (id : Int) (s : σ) :
    (Option userModel × Option GoError) × σ :=
  match S.getUserStmt id s with
  | (.error err, s1) => ((none, some err), s1)
  | (.ok rows, s1) =>
    match rows with
    | [] => ((none, some (.errorsNew "there is no user with specified id")), s1)
    | scan :: _ =>
      match scan with
      | .error err => ((none, some err), s1)
      | .ok (email, name) =>
        ((some { ID := id, Email := email, Name := name }, none), s1)

/-- The `for rows.Next()` loop of `getUserList`, with `ul` the slice built so
far: a row whose `Scan` fails is skipped (`continue`). -/
def getUserListLoop : Rows (Int × String × String) → List userModel → List userModel
  | [], ul => ul
  | .error _ :: rest, ul => getUserListLoop rest ul
  | .ok (id, email, name) :: rest, ul =>
    getUserListLoop rest (ul ++ [{ ID := id, Email := email, Name := name }])

/-- The function `getUserList`: result is the pair `([]userModel, error)`,
with `none` the nil slice. -/
def getUserList (S : Stmts σ) (s : σ) :
    (Option (List userModel) × Option GoError) × σ :=
  match S.getUserListStmt s with
  | (.error err, s1) => ((none, some err), s1)
  | (.ok rows, s1) =>
    let ul := getUserListLoop rows []
    if ul.length = 0 then
      ((none, some (.errorsNew "where is no any users")), s1)
    else
      ((some ul, none), s1)

/-- The function `updateUser`. -/
def updateUser (S : Stmts σ) (u : userModel) (s : σ) : Option GoError × σ :=
  match S.updateUserStmt u.ID u.Email u.Name s with
  | (.error err, s1) => (some err, s1)
  | (.ok _, s1) => (none, s1)

/-- The function `deleteUser`; its parameter is named `email` in the source. -/
def deleteUser (S : Stmts σ) (email : String) (s : σ) : Option GoError × σ :=
  match S.deleteUserStmt email s with
  | (.error err, s1) => (some err, s1)
  | (.ok res, s1) =>
    match res.RowsAffected with
    | .error err => (some err, s1)
    | .ok affected =>
      if affected = 0 then
        (some (.errorsNew "user does not exist"), s1)
      else
        (none, s1)

/-! ## fmt and encoding/json output -/

/-- Decimal text of an `int`, as the verb `%d` and the JSON encoder print it. -/
def formatInt (n : Int) : String :=
  match n with
  | Int.ofNat m => Nat.repr m
  | Int.negSucc m => "-" ++ Nat.repr (m + 1)

/-- Lower-case hexadecimal digit of a value below sixteen. -/
def hexDigit (n : Nat) : Char :=
  if n < 10 then Char.ofNat (48 + n) else Char.ofNat (87 + n)

/-- The backslash character. -/
def backslash : Char := Char.ofNat 92

/-- The double quote character. -/
def dquote : Char := Char.ofNat 34

/-- How the encoder of `encoding/json` (with HTML escaping, the default of
`json.Marshal`) writes one character inside a string; backspace and form feed
are written in their short form, as current Go releases do. -/
def jsonEscapeChar (c : Char) : List Char :=
  let n := c.toNat
  if n = 34 ∨ n = 92 then [backslash, c]
  else if n = 8 then [backslash, 'b']
  else if n = 12 then [backslash, 'f']
  else if n = 10 then [backslash, 'n']
  else if n = 13 then [backslash, 'r']
  else if n = 9 then [backslash, 't']
  else if n < 32 ∨ n = 38 ∨ n = 60 ∨ n = 62 then
    [backslash, 'u', '0', '0', hexDigit (n / 16), hexDigit (n % 16)]
  else if n = 8232 ∨ n = 8233 then
    [backslash, 'u', '2', '0', '2', hexDigit (n % 16)]
  else [c]

/-- A Go string as a JSON string literal. -/
def jsonString (s : String) : String :=
  String.mk ([dquote] ++ s.toList.flatMap jsonEscapeChar ++ [dquote])

/-- One field of a struct as the encoder sees it: the key of the `json` tag,
the `omitempty` option, whether the value is the empty value of its type, and
the encoded value. -/
structure JsonField where
  key : String
  omitempty : Bool
  isEmpty : Bool
  encoded : String

/-- Fields the encoder writes: an `omitempty` field with an empty value is
left out. -/
def keptFields (fs : List JsonField) : List JsonField :=
  fs.filter (fun f => !(f.omitempty && f.isEmpty))

/-- A struct as a JSON object, fields in declaration order. -/
def jsonObject (fs : List JsonField) : String :=
  "\x7b" ++ ",".intercalate ((keptFields fs).map (fun f => jsonString f.key ++ ":" ++ f.encoded))
    ++ "\x7d"

/-- Fields of `userModel` with their tags:
`json:"id,omitempty"`, `json:"email"`, `json:"name"`. -/
def userFields (u : userModel) : List JsonField :=
  [ { key := "id", omitempty := true, isEmpty := decide (u.ID = 0), encoded := formatInt u.ID },
    { key := "email", omitempty := false, isEmpty := decide (u.Email = ""),
      encoded := jsonString u.Email },
    { key := "name", omitempty := false, isEmpty := decide (u.Name = ""),
      encoded := jsonString u.Name } ]

/-- Result of `json.Marshal(u)` for a `*userModel`. -/
def marshalUser (u : userModel) : String := jsonObject (userFields u)

/-- Result of `json.Marshal(ul)` for a non-nil `[]userModel`. -/
def marshalUserList (ul : List userModel) : String :=
  "[" ++ ",".intercalate (ul.map marshalUser) ++ "]"

/-- Text of `%+v` for a `userModel` value. -/
def formatUserPlusV (u : userModel) : String :=
  "\x7bID:" ++ formatInt u.ID ++ " Email:" ++ u.Email ++ " Name:" ++ u.Name ++ "\x7d"

/-! ## Requests, the response writer and the log -/

/-- What a handler reads of an `*http.Request`: the route variables
`mux.Vars(r)` and the body. -/
structure Request where
  Vars : List (String × String)
  Body : String

/-- An `http.ResponseWriter`: the status code of the first `WriteHeader`, the
header map, and the bytes written. -/
structure ResponseWriter where
  status : Option Nat
  header : List (String × String)
  body : String
  deriving DecidableEq, Repr

/-- A writer nothing was written to. -/
def ResponseWriter.fresh : ResponseWriter := { status := none, header := [], body := "" }

/-- One line of the server log: the text, and the error value printed after it
when there is one. -/
structure LogLine where
  text : String
  err : Option GoError
  deriving DecidableEq, Repr

/-- State threaded through a handler: response writer, server log, store. -/
structure Ctx (σ : Type) where
  w : ResponseWriter
  log : List LogLine
  store : σ

/-- Initial state of a handler run on store state `s`. -/
def Ctx.start (s : σ) : Ctx σ := { w := ResponseWriter.fresh, log := [], store := s }

/-- The call `w.WriteHeader(code)`: only the first call sets the status. -/
def Ctx.WriteHeader (c : Ctx σ) (code : Nat) : Ctx σ :=
  match c.w.status with
  | some _ => c
  | none => { c with w := { c.w with status := some code } }

/-- The call `w.Write(data)`: an unset status becomes 200. -/
def Ctx.Write (c : Ctx σ) (data : String) : Ctx σ :=
  let c1 := c.WriteHeader 200
  { c1 with w := { c1.w with body := c1.w.body ++ data } }

/-- The call `w.Header().Add(key, value)`. -/
def Ctx.HeaderAdd (c : Ctx σ) (key value : String) : Ctx σ :=
  { c with w := { c.w with header := c.w.header ++ [(key, value)] } }

/-- The call `log.Println(text, err)`. -/
def Ctx.Println (c : Ctx σ) (text : String) (err : Option GoError) : Ctx σ :=
  { c with log := c.log ++ [{ text := text, err := err }] }

/-- The call `log.Printf` with its formatted text. -/
def Ctx.Printf (c : Ctx σ) (text : String) : Ctx σ :=
  { c with log := c.log ++ [{ text := text, err := none }] }

/-- Status constants of `net/http`. -/
def StatusOK : Nat := 200

/-- The constant `http.StatusBadRequest`. -/
def StatusBadRequest : Nat := 400

/-- The constant `http.StatusInternalServerError`. -/
def StatusInternalServerError : Nat := 500

/-- The body decoder `json.NewDecoder(r.Body).Decode(u)` on a zero `userModel`:
the decoded value, or the decoding error. -/
abbrev Decoder := String → Except GoError userModel

/-! ## Handler layer -/

/-- The function `createUserHandle`. -/
def createUserHandle (dec : Decoder) (S : Stmts σ) (r : Request) (c : Ctx σ) : Ctx σ :=
  match dec r.Body with
  | .error err =>
    ((c.Println "Failed to parse user data:" (some err)).WriteHeader StatusBadRequest).Write
      "Failed to parse user data"
  | .ok u =>
    match createUser S u c.store with
    | (some err, s1) =>
      ((({ c with store := s1 }).Println "Failed to create new user:" (some err)).WriteHeader
        StatusInternalServerError).Write "Failed to create new user"
    | (none, s1) =>
      ((({ c with store := s1 }).WriteHeader StatusOK).Write
        ("User with email=" ++ u.Email ++ " was created")).Printf
        ("User with email=" ++ u.Email ++ " was created")

/-- The function `getUserHandle`. -/
def getUserHandle (S : Stmts σ) (r : Request) (c : Ctx σ) : Ctx σ :=
  match r.Vars.lookup "id" with
  | some id =>
    match Atoi id with
    | .error err =>
      ((c.Println "Failed to parse user id (must be an integer):" (some err)).WriteHeader
        StatusBadRequest).Write "Failed to parse user id (must be an integer)"
    | .ok idd =>
      match getUser S idd c.store with
      | ((_, some err), s1) =>
        ((({ c with store := s1 }).Println "Failed to get user:" (some err)).WriteHeader
          StatusInternalServerError).Write "Failed to get user"
      | ((u, none), s1) =>
        let data := match u with
          | some v => marshalUser v
          | none => "null"
        (((({ c with store := s1 }).WriteHeader StatusOK).HeaderAdd "Content-Type"
          "application/json").Write data).Printf ("Got user: " ++ data)
  | none =>
    match getUserList S c.store with
    | ((_, some err), s1) =>
      ((({ c with store := s1 }).Println "Failed to get user list:" (some err)).WriteHeader
        StatusInternalServerError).Write "Failed to get user list"
    | ((ul, none), s1) =>
      let data := match ul with
        | some l => marshalUserList l
        | none => "null"
      (((({ c with store := s1 }).Printf ("Got user list: " ++ data)).WriteHeader
        StatusOK).HeaderAdd "Content-Type" "application/json").Write data

/-- The function `updateUserHandle`. -/
def updateUserHandle (dec : Decoder) (S : Stmts σ) (r : Request) (c : Ctx σ) : Ctx σ :=
  match r.Vars.lookup "id" with
  | none =>
    ((c.Println "User id is required" none).WriteHeader StatusBadRequest).Write
      "User id is required"
  | some id =>
    match dec r.Body with
    | .error err =>
      ((c.Println "Failed to parse user data:" (some err)).WriteHeader StatusBadRequest).Write
        "Failed to parse user data"
    | .ok u0 =>
      match Atoi id with
      | .error err =>
        ((c.Println "Failed to parse user id (must be an integer):" (some err)).WriteHeader
          StatusBadRequest).Write "Failed to parse user id (must be an integer)"
      | .ok idd =>
        let u : userModel := { u0 with ID := idd }
        match updateUser S u c.store with
        | (some err, s1) =>
          ((({ c with store := s1 }).Println "Failed to update user:" (some err)).WriteHeader
            StatusInternalServerError).Write "Failed to update user"
        | (none, s1) =>
          ((({ c with store := s1 }).WriteHeader StatusOK).Write
            ("Updated user with id=" ++ formatInt idd)).Printf
            ("Updated user : " ++ formatUserPlusV u)

/-- The function `deleteUserHandle`: the integer `idd` is only printed; what
goes to `deleteUser` is the path string `id`. -/
def deleteUserHandle (S : Stmts σ) (r : Request) (c : Ctx σ) : Ctx σ :=
  match r.Vars.lookup "id" with
  | none =>
    ((c.Println "User id is required" none).WriteHeader StatusBadRequest).Write
      "User id is required"
  | some id =>
    match Atoi id with
    | .error err =>
      ((c.Println "Failed to parse user id (must be an integer):" (some err)).WriteHeader
        StatusBadRequest).Write "Failed to parse user id (must be an integer)"
    | .ok idd =>
      match deleteUser S id c.store with
      | (some err, s1) =>
        ((({ c with store := s1 }).Println "Failed to delete user:" (some err)).WriteHeader
          StatusInternalServerError).Write "Failed to delete user"
      | (none, s1) =>
        ((({ c with store := s1 }).WriteHeader StatusOK).Write
          ("User [id=" ++ formatInt idd ++ "] was deleted")).Printf
          ("User [id=" ++ formatInt idd ++ "] was deleted")

/-! ## SQL templates -/

/-- The constant `createUserTpl`. -/
def createUserTpl : String := "INSERT INTO users (email, name) VALUES ($1, $2)"

/-- The constant `getUserTpl`. -/
def getUserTpl : String := "SELECT email, name FROM users WHERE id=$1"

/-- The constant `getUserListTpl`. -/
def getUserListTpl : String := "SELECT id, email, name FROM users"

/-- The constant `updateUserTpl`. -/
def updateUserTpl : String := "UPDATE users SET email=$2, name=$3 WHERE id=$1"

/-- The constant `deleteUserTpl`. -/
def deleteUserTpl : String := "DELETE FROM users WHERE id=$1"

/-- Columns of the table `users` named in the templates. -/
inductive Column where
  | id
  | email
  | name
  deriving DecidableEq, Repr

/-- Name of a column in SQL text. -/
def Column.sqlName : Column → String
  | .id => "id"
  | .email => "email"
  | .name => "name"

/-- The statement forms of the five templates.  A filter column `f` stands for
`WHERE f=$1`. -/
inductive Sql where
  /-- The form `INSERT INTO users (cols) VALUES ($1, ..)`. -/
  | insert (cols : List Column)
  /-- The form `SELECT cols FROM users`, with `WHERE f=$1` when filtered. -/
  | select (cols : List Column) (filter : Option Column)
  /-- The form `UPDATE users SET c=$2, .. WHERE f=$1`. -/
  | update (sets : List Column) (filter : Column)
  /-- The form `DELETE FROM users WHERE f=$1`. -/
  | delete (filter : Column)
  deriving DecidableEq, Repr

/-- Placeholders `$k, $(k+1), ..`, one per column. -/
def placeholders (k : Nat) (cols : List Column) : List String :=
  (List.range cols.length).map (fun i => "$" ++ Nat.repr (k + i))

/-- Assignments `c=$k, d=$(k+1), ..` of an update. -/
def assignments (k : Nat) (cols : List Column) : List String :=
  (List.zip cols (placeholders k cols)).map (fun cp => cp.1.sqlName ++ "=" ++ cp.2)

/-- SQL text of a statement form. -/
def Sql.render : Sql → String
  | .insert cols =>
    "INSERT INTO users (" ++ ", ".intercalate (cols.map Column.sqlName) ++ ") VALUES ("
      ++ ", ".intercalate (placeholders 1 cols) ++ ")"
  | .select cols none =>
    "SELECT " ++ ", ".intercalate (cols.map Column.sqlName) ++ " FROM users"
  | .select cols (some f) =>
    "SELECT " ++ ", ".intercalate (cols.map Column.sqlName) ++ " FROM users WHERE "
      ++ f.sqlName ++ "=$1"
  | .update sets f =>
    "UPDATE users SET " ++ ", ".intercalate (assignments 2 sets) ++ " WHERE "
      ++ f.sqlName ++ "=$1"
  | .delete f => "DELETE FROM users WHERE " ++ f.sqlName ++ "=$1"

/-- Statement form of `createUserTpl`. -/
def createUserSql : Sql := .insert [.email, .name]

/-- Statement form of `getUserTpl`. -/
def getUserSql : Sql := .select [.email, .name] (some .id)

/-- Statement form of `getUserListTpl`. -/
def getUserListSql : Sql := .select [.id, .email, .name] none

/-- Statement form of `updateUserTpl`. -/
def updateUserSql : Sql := .update [.email, .name] .id

/-- Statement form of `deleteUserTpl`. -/
def deleteUserSql : Sql := .delete .id

/-- The column a statement filters on, if it has a `WHERE` clause. -/
def Sql.filterColumn : Sql → Option Column
  | .insert _ => none
  | .select _ f => f
  | .update _ f => some f
  | .delete f => some f

/-! ## A table-backed store -/

/-- A value passed to or read from the store. -/
inductive Value where
  | int (n : Int)
  | text (s : String)
  deriving DecidableEq, Repr

/-- Modelled from the spec: the table `users`, whose schema is not in the
source: each row has an integer identifier assigned by the store, an email
string and a name string.  `nextID` is the next identifier the store hands
out. -/
structure Table where
  rows : List userModel
  nextID : Int
  deriving DecidableEq, Repr

/-- A parameter read by the store for an integer column: text is parsed as a
decimal integer. -/
def Value.asInt : Value → Except GoError Int
  | .int n => .ok n
  | .text s =>
    match Atoi s with
    | .ok n => .ok n
    | .error _ => .error (.external "invalid input syntax for type integer")

/-- A parameter read by the store for a text column. -/
def Value.asText : Value → String
  | .int n => formatInt n
  | .text s => s

/-- The value a row holds in a column. -/
def Column.cell (c : Column) (u : userModel) : Value :=
  match c with
  | .id => .int u.ID
  | .email => .text u.Email
  | .name => .text u.Name

/-- A parameter converted to the type of the column it is compared with or
stored in. -/
def Column.coerce (c : Column) (v : Value) : Except GoError Value :=
  match c with
  | .id => (v.asInt).map Value.int
  | .email => .ok (.text v.asText)
  | .name => .ok (.text v.asText)

/-- A row with one column replaced by an already converted value. -/
def Column.store (c : Column) (v : Value) (u : userModel) : userModel :=
  match c, v with
  | .id, .int n => { u with ID := n }
  | .email, .text s => { u with Email := s }
  | .name, .text s => { u with Name := s }
  | _, _ => u

/-- Converts the parameters of the listed columns, in order. -/
def coerceAll : List Column → List Value → Except GoError (List (Column × Value))
  | [], [] => .ok []
  | c :: cs, v :: vs =>
    match c.coerce v with
    | .error e => .error e
    | .ok w =>
      match coerceAll cs vs with
      | .error e => .error e
      | .ok rest => .ok ((c, w) :: rest)
  | _, _ => .error (.external "sql: wrong number of arguments")

/-- A row after the listed assignments. -/
def applySets (sets : List (Column × Value)) (u : userModel) : userModel :=
  sets.foldl (fun acc cv => cv.1.store cv.2 acc) u

/-- Outcome of `Exec` of a statement form with its arguments on a table. -/
def Sql.exec (q : Sql) (args : List Value) (t : Table) : Except GoError Result × Table :=
  match q, args with
  | .insert cols, vals =>
    match coerceAll cols vals with
    | .error e => (.error e, t)
    | .ok sets =>
      (.ok { RowsAffected := .ok 1 },
        { rows := t.rows ++ [applySets sets { ID := t.nextID, Email := "", Name := "" }],
          nextID := t.nextID + 1 })
  | .update cols f, key :: vals =>
    match f.coerce key, coerceAll cols vals with
    | .ok k, .ok sets =>
      (.ok { RowsAffected := .ok ((t.rows.filter (fun u => f.cell u = k)).length : Nat) },
        { t with rows := t.rows.map (fun u => if f.cell u = k then applySets sets u else u) })
    | .error e, _ => (.error e, t)
    | _, .error e => (.error e, t)
  | .delete f, [key] =>
    match f.coerce key with
    | .error e => (.error e, t)
    | .ok k =>
      (.ok { RowsAffected := .ok ((t.rows.filter (fun u => f.cell u = k)).length : Nat) },
        { t with rows := t.rows.filter (fun u => ¬ f.cell u = k) })
  | _, _ => (.error (.external "sql: wrong number of arguments"), t)

/-- Outcome of `Query` of a statement form with its arguments on a table:
the selected columns of the matching rows, in table order. -/
def Sql.query (q : Sql) (args : List Value) (t : Table) :
    Except GoError (List (List Value)) × Table :=
  match q, args with
  | .select cols none, [] =>
    (.ok (t.rows.map (fun u => cols.map (fun c => c.cell u))), t)
  | .select cols (some f), [key] =>
    match f.coerce key with
    | .error e => (.error e, t)
    | .ok k =>
      (.ok ((t.rows.filter (fun u => f.cell u = k)).map (fun u => cols.map (fun c => c.cell u))),
        t)
  | _, _ => (.error (.external "sql: wrong number of arguments"), t)

/-- The call `Scan` into a `*string`. -/
def scanString : Value → Except GoError String
  | .text s => .ok s
  | .int n => .ok (formatInt n)

/-- The call `Scan` into a `*int`. -/
def scanInt : Value → Except GoError Int
  | .int n => .ok n
  | .text s => Atoi s

/-- The call `rows.Scan(email, name)` on one row. -/
def scanEmailName : List Value → Except GoError (String × String)
  | [a, b] =>
    match scanString a, scanString b with
    | .ok email, .ok name => .ok (email, name)
    | .error e, _ => .error e
    | _, .error e => .error e
  | _ => .error (.external "sql: wrong number of destination arguments in Scan")

/-- The call `rows.Scan(id, email, name)` on one row. -/
def scanIdEmailName : List Value → Except GoError (Int × String × String)
  | [a, b, c] =>
    match scanInt a, scanString b, scanString c with
    | .ok id, .ok email, .ok name => .ok (id, email, name)
    | .error e, _, _ => .error e
    | _, .error e, _ => .error e
    | _, _, .error e => .error e
  | _ => .error (.external "sql: wrong number of destination arguments in Scan")

/-- The five statements prepared from the templates, run against a table, with
the arguments each persistence function passes. -/
def tableStmts : Stmts Table where
  createUserStmt email name t := createUserSql.exec [.text email, .text name] t
  getUserStmt id t :=
    match getUserSql.query [.int id] t with
    | (.error e, t1) => (.error e, t1)
    | (.ok raw, t1) => (.ok (raw.map scanEmailName), t1)
  getUserListStmt t :=
    match getUserListSql.query [] t with
    | (.error e, t1) => (.error e, t1)
    | (.ok raw, t1) => (.ok (raw.map scanIdEmailName), t1)
  updateUserStmt id email name t := updateUserSql.exec [.int id, .text email, .text name] t
  deleteUserStmt arg t := deleteUserSql.exec [.text arg] t

/-- A store that only counts the statement executions it receives; every
execution fails with the error `e`. -/
def countingStmts (e : GoError) : Stmts Nat where
  createUserStmt _ _ n := (.error e, n + 1)
  getUserStmt _ n := (.error e, n + 1)
  getUserListStmt n := (.error e, n + 1)
  updateUserStmt _ _ _ n := (.error e, n + 1)
  deleteUserStmt _ n := (.error e, n + 1)

/-- A store whose list query yields the given cursor and whose other
statements fail; it has no state. -/
def cannedListStmts (rows : Rows (Int × String × String)) : Stmts Unit where
  createUserStmt _ _ s := (.error (.external "not used"), s)
  getUserStmt _ s := (.error (.external "not used"), s)
  getUserListStmt s := (.ok rows, s)
  updateUserStmt _ _ _ s := (.error (.external "not used"), s)
  deleteUserStmt _ s := (.error (.external "not used"), s)

/-- A store whose delete statement has the given outcome and whose other
statements fail; it has no state. -/
def cannedDeleteStmts (out : Except GoError Result) : Stmts Unit where
  createUserStmt _ _ s := (.error (.external "not used"), s)
  getUserStmt _ s := (.error (.external "not used"), s)
  getUserListStmt s := (.error (.external "not used"), s)
  updateUserStmt _ _ _ s := (.error (.external "not used"), s)
  deleteUserStmt _ s := (out, s)

/-- A body decoder given by its outcome on the listed bodies; a body that is
not listed is reported as malformed. -/
def listedDecoder (known : List (String × Except GoError userModel)) : Decoder :=
  fun body =>
    match known.lookup body with
    | some out => out
    | none => .error (.external "malformed body")

/-! ## Startup: the statement manager -/

/-- The five process-wide statement variables; `none` is the nil pointer. -/
structure Globals (H : Type) where
  createUserStmt : Option H
  getUserStmt : Option H
  getUserListStmt : Option H
  updateUserStmt : Option H
  deleteUserStmt : Option H

/-- The five variables in declaration order. -/
def Globals.toList {H : Type} (g : Globals H) : List (Option H) :=
  [g.createUserStmt, g.getUserStmt, g.getUserListStmt, g.updateUserStmt, g.deleteUserStmt]

/-- Startup state: the statement variables, and the templates handed to
`db.PrepareContext` so far, oldest first. -/
structure Startup (H : Type) where
  globals : Globals H
  prepared : List String

/-- The call `db.PrepareContext(ctx, tpl)`: the store `db` decides whether a
template compiles; the result is the pair `(*sql.Stmt, error)`. -/
def PrepareContext {H : Type} (db : String → Except GoError H) (tpl : String)
    (st : Startup H) : (Option H × Option GoError) × Startup H :=
  match db tpl with
  | .ok h => ((some h, none), { st with prepared := st.prepared ++ [tpl] })
  | .error e => ((none, some e), { st with prepared := st.prepared ++ [tpl] })

/-- The function `mustPrepareStmts`.  Each statement variable is assigned
the handle the call returned, then the error is checked; `some err` is
`panic(err)`, `none` is a normal return. -/
def mustPrepareStmts {H : Type} (db : String → Except GoError H) (st : Startup H) :
    Option GoError × Startup H :=
  match PrepareContext db createUserTpl st with
  | ((h1, err1), st1) =>
    let st1 := { st1 with globals := { st1.globals with createUserStmt := h1 } }
    match err1 with
    | some err => (some err, st1)
    | none =>
      match PrepareContext db getUserTpl st1 with
      | ((h2, err2), st2) =>
        let st2 := { st2 with globals := { st2.globals with getUserStmt := h2 } }
        match err2 with
        | some err => (some err, st2)
        | none =>
          match PrepareContext db getUserListTpl st2 with
          | ((h3, err3), st3) =>
            let st3 := { st3 with globals := { st3.globals with getUserListStmt := h3 } }
            match err3 with
            | some err => (some err, st3)
            | none =>
              match PrepareContext db updateUserTpl st3 with
              | ((h4, err4), st4) =>
                let st4 := { st4 with globals := { st4.globals with updateUserStmt := h4 } }
                match err4 with
                | some err => (some err, st4)
                | none =>
                  match PrepareContext db deleteUserTpl st4 with
                  | ((h5, err5), st5) =>
                    let st5 :=
                      { st5 with globals := { st5.globals with deleteUserStmt := h5 } }
                    match err5 with
                    | some err => (some err, st5)
                    | none => (none, st5)

/-- The templates in the order `mustPrepareStmts` names them. -/
def templateOrder : List String :=
  [createUserTpl, getUserTpl, getUserListTpl, updateUserTpl, deleteUserTpl]

/-- The handle a store returns for a template, nil when it does not compile. -/
def handleOf {H : Type} (db : String → Except GoError H) (tpl : String) : Option H :=
  match db tpl with
  | .ok h => some h
  | .error _ => none

/-- A store on which exactly the listed templates fail to compile; the handle
of a compiled template is its text. -/
def rejecting (bad : List String) : String → Except GoError String :=
  fun tpl => if tpl ∈ bad then .error (.external ("cannot prepare: " ++ tpl)) else .ok tpl

/-! ## Router -/

/-- The handlers registered in `main`. -/
inductive Handler where
  | createUser
  | getUser
  | updateUser
  | deleteUser
  deriving DecidableEq, Repr

/-- Removes the leading characters `p` from `cs`, if `cs` starts with them. -/
def dropLead : List Char → List Char → Option (List Char)
  | [], cs => some cs
  | _ :: _, [] => none
  | p :: ps, c :: cs => if p = c then dropLead ps cs else none

/-- Route variables of a path matching the pattern `/api/v1/{id}`: the
variable is one non-empty segment without a slash. -/
def matchWithID (path : String) : Option (List (String × String)) :=
  match dropLead "/api/v1/".toList path.toList with
  | some seg =>
    if seg ≠ [] ∧ '/' ∉ seg then some [("id", String.mk seg)] else none
  | none => none

/-- The route table of `main`, first match first: the handler and the route
variables for a method and path. -/
def route (method path : String) : Option (Handler × List (String × String)) :=
  if method = "POST" ∧ path = "/api/v1" then some (.createUser, [])
  else if method = "GET" ∧ path = "/api/v1" then some (.getUser, [])
  else
    match matchWithID path with
    | none => none
    | some vars =>
      if method = "GET" then some (.getUser, vars)
      else if method = "PUT" then some (.updateUser, vars)
      else if method = "DELETE" then some (.deleteUser, vars)
      else none

/-- One request served through the router on store state `s`; `none` when no
route of this program matches.  The instrumentation middleware
`prometheusMiddleware` is not in the source; the specification describes it as
recording metrics without altering handler behaviour, and it is left out. -/
def serve (dec : Decoder) (S : Stmts σ) (method path body : String) (s : σ) :
    Option (Ctx σ) :=
  match route method path with
  | none => none
  | some (h, vars) =>
    let r : Request := { Vars := vars, Body := body }
    match h with
    | .createUser => some (createUserHandle dec S r (Ctx.start s))
    | .getUser => some (getUserHandle S r (Ctx.start s))
    | .updateUser => some (updateUserHandle dec S r (Ctx.start s))
    | .deleteUser => some (deleteUserHandle S r (Ctx.start s))

/-- The response a handler writes on a persistence failure: status 500, no
header, and a fixed text. -/
def failureResponse (text : String) : ResponseWriter :=
  { status := some StatusInternalServerError, header := [], body := text }

/-- The response a handler writes on a request it rejects: status 400, no
header, and a fixed text. -/
def badRequestResponse (text : String) : ResponseWriter :=
  { status := some StatusBadRequest, header := [], body := text }

/-- The user of a scanned list row. -/
def rowUser (row : Int × String × String) : userModel :=
  { ID := row.1, Email := row.2.1, Name := row.2.2 }

/-- The users of the rows of a cursor whose scan succeeds, in cursor order. -/
def scannedUsers (rows : Rows (Int × String × String)) : List userModel :=
  rows.filterMap (fun scan =>
    match scan with
    | .ok row => some (rowUser row)
    | .error _ => none)

/-- The table holding the single user with id 1, email `a@x.com`, name `A`. -/
def oneUserTable : Table :=
  { rows := [{ ID := 1, Email := "a@x.com", Name := "A" }], nextID := 2 }

/-- A request body used in examples: the JSON text of a user without id. -/
def sampleBody : String := "\x7b\"email\":\"a@x.com\",\"name\":\"A\"\x7d"

/-- The decoder outcomes on the two bodies used in examples: `sampleBody`
decodes to the user it spells, and the empty body fails with `EOF`. -/
def sampleDecoder : Decoder :=
  listedDecoder
    [(sampleBody, .ok { ID := 0, Email := "a@x.com", Name := "A" }),
     ("", .error (.external "EOF"))]

/-- A request on a route with the variable `id`. -/
def requestWithID (id body : String) : Request := { Vars := [("id", id)], Body := body }

/-- A request on a route without variables. -/
def requestNoID (body : String) : Request := { Vars := [], Body := body }

/-- A cursor of three list rows whose second row fails to scan. -/
def cursorWithBadRow : Rows (Int × String × String) :=
  [.ok (1, "a@x.com", "A"),
   .error (.external "sql: Scan error on column index 2, name \"name\": converting NULL to string is unsupported"),
   .ok (3, "c@x.com", "C")]

/-- The startup state of a fresh process: every statement variable nil, no
template handed to the store yet. -/
def Startup.fresh (H : Type) : Startup H :=
  { globals :=
      { createUserStmt := none, getUserStmt := none, getUserListStmt := none,
        updateUserStmt := none, deleteUserStmt := none },
    prepared := [] }

/-! ## Facts about the templates -/

theorem createUserSql_render : createUserSql.render = createUserTpl := by decide

theorem getUserSql_render : getUserSql.render = getUserTpl := by decide

theorem getUserListSql_render : getUserListSql.render = getUserListTpl := by decide

theorem updateUserSql_render : updateUserSql.render = updateUserTpl := by decide

theorem deleteUserSql_render : deleteUserSql.render = deleteUserTpl := by decide

/-! ## Persistence layer: results -/

theorem getUserListLoop_eq (rows : Rows (Int × String × String)) (ul : List userModel) :
    getUserListLoop rows ul = ul ++ scannedUsers rows := by
  induction rows generalizing ul with
  | nil => simp [getUserListLoop, scannedUsers]
  | cons scan rest ih =>
    cases scan with
    | error e =>
      simp only [getUserListLoop, ih]
      simp [scannedUsers]
    | ok row =>
      obtain ⟨id, email, name⟩ := row
      simp only [getUserListLoop, ih]
      simp [scannedUsers, rowUser]

theorem scannedUsers_all_ok (us : List userModel) :
    scannedUsers (us.map (fun u => Except.ok (u.ID, u.Email, u.Name))) = us := by
  induction us with
  | nil => rfl
  | cons u rest ih =>
    have hstep : scannedUsers (List.map (fun u => Except.ok (u.ID, u.Email, u.Name)) (u :: rest))
        = u :: scannedUsers (List.map (fun u => Except.ok (u.ID, u.Email, u.Name)) rest) := rfl
    rw [hstep, ih]

/-- C1: on a route with an `id` variable whose text `strconv.Atoi` rejects,
`getUserHandle`, `updateUserHandle` and `deleteUserHandle` write status 400
and leave the store exactly as it was, for every body, every body decoder and
every behaviour of the five statements.  The statements are arbitrary, so a
store that records each execution it receives is covered: no persistence
function runs its statement. -/
theorem bad_id_is_400_and_store_untouched (dec : Decoder) (S : Stmts σ) (r : Request)
    (s : σ) (id : String) (e : GoError)
    (hid : r.Vars.lookup "id" = some id) (hbad : Atoi id = .error e) :
    ((getUserHandle S r (Ctx.start s)).w.status = some 400
        ∧ (getUserHandle S r (Ctx.start s)).store = s)
      ∧ ((updateUserHandle dec S r (Ctx.start s)).w.status = some 400
        ∧ (updateUserHandle dec S r (Ctx.start s)).store = s)
      ∧ ((deleteUserHandle S r (Ctx.start s)).w.status = some 400
        ∧ (deleteUserHandle S r (Ctx.start s)).store = s) := by
  refine ⟨?_, ?_, ?_⟩
  · simp [getUserHandle, hid, hbad, Ctx.Write, Ctx.WriteHeader, Ctx.Println, Ctx.start,
      ResponseWriter.fresh, StatusBadRequest]
  · cases hd : dec r.Body <;>
      simp [updateUserHandle, hid, hbad, hd, Ctx.Write, Ctx.WriteHeader, Ctx.Println,
        Ctx.start, ResponseWriter.fresh, StatusBadRequest]
  · simp [deleteUserHandle, hid, hbad, Ctx.Write, Ctx.WriteHeader, Ctx.Println, Ctx.start,
      ResponseWriter.fresh, StatusBadRequest]

/-- C1, on the counting store: the identifier `1x` is rejected with 400 by the
three handlers, with a decodable body, and the execution counter stays 0. -/
theorem bad_id_is_400_and_store_untouched_witness :
    ((getUserHandle (countingStmts (.external "down"))
          { Vars := [("id", "1x")], Body := "b" } (Ctx.start 0)).w.status = some 400
        ∧ (getUserHandle (countingStmts (.external "down"))
          { Vars := [("id", "1x")], Body := "b" } (Ctx.start 0)).store = 0)
      ∧ ((updateUserHandle
            (listedDecoder [("b", .ok { ID := 0, Email := "a@x.com", Name := "A" })])
            (countingStmts (.external "down"))
            { Vars := [("id", "1x")], Body := "b" } (Ctx.start 0)).w.status = some 400
        ∧ (updateUserHandle
            (listedDecoder [("b", .ok { ID := 0, Email := "a@x.com", Name := "A" })])
            (countingStmts (.external "down"))
            { Vars := [("id", "1x")], Body := "b" } (Ctx.start 0)).store = 0)
      ∧ ((deleteUserHandle (countingStmts (.external "down"))
          { Vars := [("id", "1x")], Body := "b" } (Ctx.start 0)).w.status = some 400
        ∧ (deleteUserHandle (countingStmts (.external "down"))
          { Vars := [("id", "1x")], Body := "b" } (Ctx.start 0)).store = 0) :=
  bad_id_is_400_and_store_untouched
    (listedDecoder [("b", .ok { ID := 0, Email := "a@x.com", Name := "A" })])
    (countingStmts (.external "down")) { Vars := [("id", "1x")], Body := "b" } 0 "1x"
    (.numError "1x" false) (by decide) (by decide)

/-- C2: when the query of `getUser` succeeds, then with zero rows the result
is no user and the error `there is no user with specified id`, and with a
first row `(email, name)` whose scan succeeds the result is exactly the user
with `ID` the argument `id`, that email and that name, and a nil error. -/
theorem getUser_not_found_or_populated (S : Stmts σ) (id : Int) (s s1 : σ)
    (rows : Rows (String × String)) (hq : S.getUserStmt id s = (.ok rows, s1)) :
    (rows = [] →
        (getUser S id s).1 = (none, some (.errorsNew "there is no user with specified id")))
      ∧ (∀ email name rest, rows = .ok (email, name) :: rest →
        (getUser S id s).1 = (some { ID := id, Email := email, Name := name }, none)) := by
  constructor
  · intro h
    subst h
    simp [getUser, hq]
  · intro email name rest h
    subst h
    simp [getUser, hq]

/-- C2, on tables: fetching id 1 from the one-user table gives that user, and
fetching id 2 gives the not-found error and no user. -/
theorem getUser_not_found_or_populated_witness :
    (getUser tableStmts 1 oneUserTable).1
        = (some { ID := 1, Email := "a@x.com", Name := "A" }, none)
      ∧ (getUser tableStmts 2 oneUserTable).1
        = (none, some (.errorsNew "there is no user with specified id")) :=
  ⟨(getUser_not_found_or_populated tableStmts 1 oneUserTable oneUserTable
      [.ok ("a@x.com", "A")] (by decide)).2 "a@x.com" "A" [] rfl,
   (getUser_not_found_or_populated tableStmts 2 oneUserTable oneUserTable
      [] (by decide)).1 rfl⟩

/-- C3: `getUserList` never returns a nil error together with a nil or empty
list; when the query yields no rows the result is the nil list and the error
`where is no any users`; when it yields one or more rows that all scan
successfully the result is the list of exactly those users, in the order of
the cursor, with a nil error. -/
theorem getUserList_empty_is_error (S : Stmts σ) (s : σ) :
    (∀ l, (getUserList S s).1 = (l, none) → ∃ us, l = some us ∧ us ≠ [])
      ∧ (∀ s1, S.getUserListStmt s = (.ok [], s1) →
        (getUserList S s).1 = (none, some (.errorsNew "where is no any users")))
      ∧ (∀ s1 us, us ≠ [] →
        S.getUserListStmt s = (.ok (us.map (fun u => .ok (u.ID, u.Email, u.Name))), s1) →
        (getUserList S s).1 = (some us, none)) := by
  refine ⟨?_, ?_, ?_⟩
  · intro l h
    unfold getUserList at h
    rcases hq : S.getUserListStmt s with ⟨res, s1⟩
    rw [hq] at h
    cases res with
    | error err => simp at h
    | ok rows =>
      simp only at h
      by_cases hlen : (getUserListLoop rows []).length = 0
      · simp [hlen] at h
      · simp only [hlen, if_false, Prod.mk.injEq, and_true] at h
        refine ⟨getUserListLoop rows [], h.symm, ?_⟩
        intro hnil
        exact hlen (by simp [hnil])
  · intro s1 hq
    simp [getUserList, hq, getUserListLoop]
  · intro s1 us hne hq
    have hloop : getUserListLoop (us.map (fun u => Except.ok (u.ID, u.Email, u.Name))) [] = us := by
      rw [getUserListLoop_eq, scannedUsers_all_ok]
      simp
    simp [getUserList, hq, hloop, hne]

/-- C3, on tables: the list of the one-user table is that user, and the list
of the empty table is the error with a nil list. -/
theorem getUserList_empty_is_error_witness :
    (getUserList tableStmts oneUserTable).1
        = (some [{ ID := 1, Email := "a@x.com", Name := "A" }], none)
      ∧ (getUserList tableStmts { rows := [], nextID := 1 }).1
        = (none, some (.errorsNew "where is no any users")) :=
  ⟨(getUserList_empty_is_error tableStmts oneUserTable).2.2 oneUserTable
      [{ ID := 1, Email := "a@x.com", Name := "A" }] (by decide) (by decide),
   (getUserList_empty_is_error tableStmts { rows := [], nextID := 1 }).2.1
      { rows := [], nextID := 1 } (by decide)⟩

/-- C4: for every argument of `deleteUser`: when `Exec` succeeds and
`RowsAffected` reports the count `n`, the result is the error
`user does not exist` exactly when `n` is zero and is nil for every `n` of one
or more; an error of `Exec` or of `RowsAffected` is the result, unchanged. -/
theorem deleteUser_by_affected_rows (S : Stmts σ) (email : String) (s : σ) :
    (∀ res s1 n, S.deleteUserStmt email s = (.ok res, s1) → res.RowsAffected = .ok n →
        ((deleteUser S email s).1 = some (.errorsNew "user does not exist") ↔ n = 0)
          ∧ (1 ≤ n → (deleteUser S email s).1 = none))
      ∧ (∀ e s1, S.deleteUserStmt email s = (.error e, s1) → (deleteUser S email s).1 = some e)
      ∧ (∀ res s1 e, S.deleteUserStmt email s = (.ok res, s1) → res.RowsAffected = .error e →
        (deleteUser S email s).1 = some e) := by
  refine ⟨?_, ?_, ?_⟩
  · intro res s1 n hq hn
    by_cases h0 : n = 0
    · simp [deleteUser, hq, hn, h0]
    · have hres : (deleteUser S email s).1 = none := by
        simp [deleteUser, hq, hn, h0]
      rw [hres]
      exact ⟨by simp [h0], fun _ => rfl⟩
  · intro e s1 hq
    simp [deleteUser, hq]
  · intro res s1 e hq hn
    simp [deleteUser, hq, hn]

/-- C4, on stores: deleting id text `2` from the one-user table affects zero
rows and gives `user does not exist`; deleting `1` affects one row and gives
nil; an `Exec` error and a `RowsAffected` error come back unchanged. -/
theorem deleteUser_by_affected_rows_witness :
    (deleteUser tableStmts "2" oneUserTable).1 = some (.errorsNew "user does not exist")
      ∧ (deleteUser tableStmts "1" oneUserTable).1 = none
      ∧ (deleteUser (cannedDeleteStmts (.error (.external "bad connection"))) "1" ()).1
        = some (.external "bad connection")
      ∧ (deleteUser (cannedDeleteStmts (.ok { RowsAffected := .error (.external "no count") }))
          "1" ()).1 = some (.external "no count") :=
  ⟨((deleteUser_by_affected_rows tableStmts "2" oneUserTable).1
      { RowsAffected := .ok 0 } oneUserTable 0 (by decide) rfl).1.2 rfl,
   ((deleteUser_by_affected_rows tableStmts "1" oneUserTable).1
      { RowsAffected := .ok 1 } { rows := [], nextID := 2 } 1 (by decide) rfl).2 (by decide),
   (deleteUser_by_affected_rows (cannedDeleteStmts (.error (.external "bad connection")))
      "1" ()).2.1 (.external "bad connection") () rfl,
   (deleteUser_by_affected_rows
      (cannedDeleteStmts (.ok { RowsAffected := .error (.external "no count") }))
      "1" ()).2.2 { RowsAffected := .error (.external "no count") } () (.external "no count")
      rfl rfl⟩

/-! ## Handler layer: responses on persistence failure -/

theorem createUserHandle_failure (dec : Decoder) (S : Stmts σ) (r : Request) (s : σ)
    (u : userModel) (e : GoError) (hd : dec r.Body = .ok u)
    (hf : (createUser S u s).1 = some e) :
    (createUserHandle dec S r (Ctx.start s)).w = failureResponse "Failed to create new user" := by
  rcases hc : createUser S u s with ⟨o, t⟩
  rw [hc] at hf
  simp only at hf
  subst hf
  simp [createUserHandle, hd, hc, Ctx.start, Ctx.Write, Ctx.WriteHeader, Ctx.Println,
    ResponseWriter.fresh, failureResponse]

theorem getUserHandle_one_failure (S : Stmts σ) (r : Request) (s : σ) (id : String)
    (idd : Int) (e : GoError) (hid : r.Vars.lookup "id" = some id) (ha : Atoi id = .ok idd)
    (hf : (getUser S idd s).1.2 = some e) :
    (getUserHandle S r (Ctx.start s)).w = failureResponse "Failed to get user" := by
  rcases hc : getUser S idd s with ⟨⟨u, o⟩, t⟩
  rw [hc] at hf
  simp only at hf
  subst hf
  simp [getUserHandle, hid, ha, hc, Ctx.start, Ctx.Write, Ctx.WriteHeader, Ctx.Println,
    ResponseWriter.fresh, failureResponse]

theorem getUserHandle_list_failure (S : Stmts σ) (r : Request) (s : σ) (e : GoError)
    (hid : r.Vars.lookup "id" = none) (hf : (getUserList S s).1.2 = some e) :
    (getUserHandle S r (Ctx.start s)).w = failureResponse "Failed to get user list" := by
  rcases hc : getUserList S s with ⟨⟨ul, o⟩, t⟩
  rw [hc] at hf
  simp only at hf
  subst hf
  simp [getUserHandle, hid, hc, Ctx.start, Ctx.Write, Ctx.WriteHeader, Ctx.Println,
    ResponseWriter.fresh, failureResponse]

theorem updateUserHandle_failure (dec : Decoder) (S : Stmts σ) (r : Request) (s : σ)
    (id : String) (idd : Int) (u : userModel) (e : GoError)
    (hid : r.Vars.lookup "id" = some id) (hd : dec r.Body = .ok u) (ha : Atoi id = .ok idd)
    (hf : (updateUser S { u with ID := idd } s).1 = some e) :
    (updateUserHandle dec S r (Ctx.start s)).w = failureResponse "Failed to update user" := by
  rcases hc : updateUser S { u with ID := idd } s with ⟨o, t⟩
  rw [hc] at hf
  simp only at hf
  subst hf
  simp [updateUserHandle, hid, hd, ha, hc, Ctx.start, Ctx.Write, Ctx.WriteHeader, Ctx.Println,
    ResponseWriter.fresh, failureResponse]

theorem deleteUserHandle_failure (S : Stmts σ) (r : Request) (s : σ) (id : String)
    (idd : Int) (e : GoError) (hid : r.Vars.lookup "id" = some id) (ha : Atoi id = .ok idd)
    (hf : (deleteUser S id s).1 = some e) :
    (deleteUserHandle S r (Ctx.start s)).w = failureResponse "Failed to delete user" := by
  rcases hc : deleteUser S id s with ⟨o, t⟩
  rw [hc] at hf
  simp only at hf
  subst hf
  simp [deleteUserHandle, hid, ha, hc, Ctx.start, Ctx.Write, Ctx.WriteHeader, Ctx.Println,
    ResponseWriter.fresh, failureResponse]

/-- C5: take one request and two runs of a handler on it, on any two stores,
in both of which the persistence call returns an error (`e1` in one run, `e2`
in the other).  Then for each of create, get-one, list, update and delete the
first run writes status 500 with the fixed text of that handler and no header,
and the second run writes the very same response: the response does not depend
on the error value. -/
theorem store_failure_response_is_generic {σ1 σ2 : Type} (dec : Decoder) (S1 : Stmts σ1)
    (S2 : Stmts σ2) (r : Request) (s1 : σ1) (s2 : σ2) :
    (∀ u e1 e2, dec r.Body = .ok u →
        (createUser S1 u s1).1 = some e1 → (createUser S2 u s2).1 = some e2 →
        (createUserHandle dec S1 r (Ctx.start s1)).w
            = failureResponse "Failed to create new user"
          ∧ (createUserHandle dec S2 r (Ctx.start s2)).w
            = (createUserHandle dec S1 r (Ctx.start s1)).w)
      ∧ (∀ id idd e1 e2, r.Vars.lookup "id" = some id → Atoi id = .ok idd →
        (getUser S1 idd s1).1.2 = some e1 → (getUser S2 idd s2).1.2 = some e2 →
        (getUserHandle S1 r (Ctx.start s1)).w = failureResponse "Failed to get user"
          ∧ (getUserHandle S2 r (Ctx.start s2)).w = (getUserHandle S1 r (Ctx.start s1)).w)
      ∧ (∀ e1 e2, r.Vars.lookup "id" = none →
        (getUserList S1 s1).1.2 = some e1 → (getUserList S2 s2).1.2 = some e2 →
        (getUserHandle S1 r (Ctx.start s1)).w = failureResponse "Failed to get user list"
          ∧ (getUserHandle S2 r (Ctx.start s2)).w = (getUserHandle S1 r (Ctx.start s1)).w)
      ∧ (∀ id idd u e1 e2, r.Vars.lookup "id" = some id → dec r.Body = .ok u →
        Atoi id = .ok idd →
        (updateUser S1 { u with ID := idd } s1).1 = some e1 →
        (updateUser S2 { u with ID := idd } s2).1 = some e2 →
        (updateUserHandle dec S1 r (Ctx.start s1)).w = failureResponse "Failed to update user"
          ∧ (updateUserHandle dec S2 r (Ctx.start s2)).w
            = (updateUserHandle dec S1 r (Ctx.start s1)).w)
      ∧ (∀ id idd e1 e2, r.Vars.lookup "id" = some id → Atoi id = .ok idd →
        (deleteUser S1 id s1).1 = some e1 → (deleteUser S2 id s2).1 = some e2 →
        (deleteUserHandle S1 r (Ctx.start s1)).w = failureResponse "Failed to delete user"
          ∧ (deleteUserHandle S2 r (Ctx.start s2)).w
            = (deleteUserHandle S1 r (Ctx.start s1)).w) := by
  refine ⟨?_, ?_, ?_, ?_, ?_⟩
  · intro u e1 e2 hd h1 h2
    rw [createUserHandle_failure dec S1 r s1 u e1 hd h1,
      createUserHandle_failure dec S2 r s2 u e2 hd h2]
    exact ⟨rfl, rfl⟩
  · intro id idd e1 e2 hid ha h1 h2
    rw [getUserHandle_one_failure S1 r s1 id idd e1 hid ha h1,
      getUserHandle_one_failure S2 r s2 id idd e2 hid ha h2]
    exact ⟨rfl, rfl⟩
  · intro e1 e2 hid h1 h2
    rw [getUserHandle_list_failure S1 r s1 e1 hid h1,
      getUserHandle_list_failure S2 r s2 e2 hid h2]
    exact ⟨rfl, rfl⟩
  · intro id idd u e1 e2 hid hd ha h1 h2
    rw [updateUserHandle_failure dec S1 r s1 id idd u e1 hid hd ha h1,
      updateUserHandle_failure dec S2 r s2 id idd u e2 hid hd ha h2]
    exact ⟨rfl, rfl⟩
  · intro id idd e1 e2 hid ha h1 h2
    rw [deleteUserHandle_failure S1 r s1 id idd e1 hid ha h1,
      deleteUserHandle_failure S2 r s2 id idd e2 hid ha h2]
    exact ⟨rfl, rfl⟩

/-- C5, on two stores that fail every statement, one with the error
`connection refused` and one with `deadlock detected`: each of the five
handlers answers both runs with the same 500 response. -/
theorem store_failure_response_is_generic_witness :
    ((createUserHandle sampleDecoder (countingStmts (.external "connection refused"))
          (requestNoID sampleBody) (Ctx.start 0)).w
          = failureResponse "Failed to create new user"
        ∧ (createUserHandle sampleDecoder (countingStmts (.external "deadlock detected"))
          (requestNoID sampleBody) (Ctx.start 0)).w
          = (createUserHandle sampleDecoder (countingStmts (.external "connection refused"))
            (requestNoID sampleBody) (Ctx.start 0)).w)
      ∧ ((getUserHandle (countingStmts (.external "connection refused"))
          (requestWithID "1" "") (Ctx.start 0)).w = failureResponse "Failed to get user"
        ∧ (getUserHandle (countingStmts (.external "deadlock detected"))
          (requestWithID "1" "") (Ctx.start 0)).w
          = (getUserHandle (countingStmts (.external "connection refused"))
            (requestWithID "1" "") (Ctx.start 0)).w)
      ∧ ((getUserHandle (countingStmts (.external "connection refused"))
          (requestNoID "") (Ctx.start 0)).w = failureResponse "Failed to get user list"
        ∧ (getUserHandle (countingStmts (.external "deadlock detected"))
          (requestNoID "") (Ctx.start 0)).w
          = (getUserHandle (countingStmts (.external "connection refused"))
            (requestNoID "") (Ctx.start 0)).w)
      ∧ ((updateUserHandle sampleDecoder (countingStmts (.external "connection refused"))
          (requestWithID "1" sampleBody) (Ctx.start 0)).w
          = failureResponse "Failed to update user"
        ∧ (updateUserHandle sampleDecoder (countingStmts (.external "deadlock detected"))
          (requestWithID "1" sampleBody) (Ctx.start 0)).w
          = (updateUserHandle sampleDecoder (countingStmts (.external "connection refused"))
            (requestWithID "1" sampleBody) (Ctx.start 0)).w)
      ∧ ((deleteUserHandle (countingStmts (.external "connection refused"))
          (requestWithID "1" "") (Ctx.start 0)).w = failureResponse "Failed to delete user"
        ∧ (deleteUserHandle (countingStmts (.external "deadlock detected"))
          (requestWithID "1" "") (Ctx.start 0)).w
          = (deleteUserHandle (countingStmts (.external "connection refused"))
            (requestWithID "1" "") (Ctx.start 0)).w) :=
  ⟨(store_failure_response_is_generic sampleDecoder
      (countingStmts (.external "connection refused"))
      (countingStmts (.external "deadlock detected")) (requestNoID sampleBody) 0 0).1
      { ID := 0, Email := "a@x.com", Name := "A" } (.external "connection refused")
      (.external "deadlock detected") (by decide) rfl rfl,
   (store_failure_response_is_generic sampleDecoder
      (countingStmts (.external "connection refused"))
      (countingStmts (.external "deadlock detected")) (requestWithID "1" "") 0 0).2.1
      "1" 1 (.external "connection refused") (.external "deadlock detected")
      (by decide) (by decide) rfl rfl,
   (store_failure_response_is_generic sampleDecoder
      (countingStmts (.external "connection refused"))
      (countingStmts (.external "deadlock detected")) (requestNoID "") 0 0).2.2.1
      (.external "connection refused") (.external "deadlock detected") (by decide) rfl rfl,
   (store_failure_response_is_generic sampleDecoder
      (countingStmts (.external "connection refused"))
      (countingStmts (.external "deadlock detected")) (requestWithID "1" sampleBody) 0 0).2.2.2.1
      "1" 1 { ID := 0, Email := "a@x.com", Name := "A" } (.external "connection refused")
      (.external "deadlock detected") (by decide) (by decide) (by decide) rfl rfl,
   (store_failure_response_is_generic sampleDecoder
      (countingStmts (.external "connection refused"))
      (countingStmts (.external "deadlock detected")) (requestWithID "1" "") 0 0).2.2.2.2
      "1" 1 (.external "connection refused") (.external "deadlock detected")
      (by decide) (by decide) rfl rfl⟩

/-! ## Delete: filter column and calling convention -/

/-- C6, as stated, fails: the delete statement does not filter by the email
column, and `DELETE /api/v1/1` on the table holding the user with id 1 and
email `a@x.com` is answered with status 200 and `User [id=1] was deleted`,
leaving no row, not with a 500 response. -/
theorem delete_by_path_id_counterexample :
    deleteUserSql.filterColumn ≠ some Column.email
      ∧ (serve sampleDecoder tableStmts "DELETE" "/api/v1/1" "" oneUserTable).map
          (fun c => (c.w, c.store))
        = some ({ status := some 200, header := [], body := "User [id=1] was deleted" },
            { rows := [], nextID := 2 })
      ∧ (serve sampleDecoder tableStmts "DELETE" "/api/v1/1" "" oneUserTable).map
          (fun c => c.w.status) ≠ some (some 500) := by
  decide

theorem deleteUser_table (t : Table) (id : String) (n : Int) (ha : Atoi id = .ok n) :
    deleteUser tableStmts id t
      = (if ((t.rows.filter (fun u => Column.id.cell u = .int n)).length : Int) = 0 then
          some (.errorsNew "user does not exist") else none,
        { t with rows := t.rows.filter (fun u => ¬ Column.id.cell u = .int n) }) := by
  simp only [deleteUser, tableStmts, deleteUserSql, Sql.exec, Column.coerce, Value.asInt, ha,
    Except.map]
  split <;> rfl

theorem filter_id_length_ne_zero (t : Table) (n : Int) (u : userModel) (hu : u ∈ t.rows)
    (hn : u.ID = n) :
    ((t.rows.filter (fun u => Column.id.cell u = .int n)).length : Int) ≠ 0 := by
  have hmem : u ∈ t.rows.filter (fun u => Column.id.cell u = .int n) := by
    simp [List.mem_filter, hu, Column.cell, hn]
  have hpos : 0 < (t.rows.filter (fun u => Column.id.cell u = .int n)).length :=
    List.length_pos_of_mem hmem
  omega

/-- C6, amended: the delete statement filters the rows of `users` by the id
column (the form of `deleteUserTpl` is `DELETE FROM users WHERE id=$1`), and
`deleteUserHandle` passes the path string to `deleteUser` as that parameter,
on every store.  Consequently, on a table, a delete request whose path id
reads as the integer `n` and for which a row with id `n` is stored is
answered with status 200 and `User [id=n] was deleted`, and afterwards the
table holds exactly the rows whose id is not `n`. -/
theorem delete_filters_by_id (t : Table) (r : Request) (id : String) (n : Int)
    (u : userModel) (hid : r.Vars.lookup "id" = some id) (ha : Atoi id = .ok n)
    (hu : u ∈ t.rows) (hn : u.ID = n) :
    deleteUserSql.filterColumn = some Column.id
      ∧ deleteUserSql.render = deleteUserTpl
      ∧ (∀ (τ : Type) (S : Stmts τ) (s : τ),
          (deleteUserHandle S r (Ctx.start s)).store = (deleteUser S id s).2)
      ∧ (deleteUserHandle tableStmts r (Ctx.start t)).w
        = { status := some 200, header := [],
            body := "User [id=" ++ formatInt n ++ "] was deleted" }
      ∧ (deleteUserHandle tableStmts r (Ctx.start t)).store.rows
        = t.rows.filter (fun v => ¬ v.ID = n) := by
  refine ⟨rfl, deleteUserSql_render, ?_, ?_, ?_⟩
  · intro τ S s
    rcases hc : deleteUser S id s with ⟨o, s1⟩
    cases o <;>
      simp [deleteUserHandle, hid, ha, hc, Ctx.start, Ctx.Write, Ctx.WriteHeader, Ctx.Println,
        Ctx.Printf, ResponseWriter.fresh]
  · have hdel := deleteUser_table t id n ha
    rw [if_neg (filter_id_length_ne_zero t n u hu hn)] at hdel
    simp [deleteUserHandle, hid, ha, hdel, Ctx.start, Ctx.Write,
      Ctx.WriteHeader, Ctx.Printf, ResponseWriter.fresh, StatusOK]
  · have hdel := deleteUser_table t id n ha
    rw [if_neg (filter_id_length_ne_zero t n u hu hn)] at hdel
    simp [deleteUserHandle, hid, ha, hdel, Ctx.start, Ctx.Write,
      Ctx.WriteHeader, Ctx.Printf, Column.cell, ResponseWriter.fresh]

/-- C6, amended, on a table of two users: deleting path id `2` answers 200
with `User [id=2] was deleted` and leaves the user with id 1. -/
theorem delete_filters_by_id_witness :
    (deleteUserHandle tableStmts (requestWithID "2" "")
        (Ctx.start { rows := [{ ID := 1, Email := "a@x.com", Name := "A" },
                              { ID := 2, Email := "b@x.com", Name := "B" }],
                     nextID := 3 })).w
        = { status := some 200, header := [], body := "User [id=2] was deleted" }
      ∧ (deleteUserHandle tableStmts (requestWithID "2" "")
        (Ctx.start { rows := [{ ID := 1, Email := "a@x.com", Name := "A" },
                              { ID := 2, Email := "b@x.com", Name := "B" }],
                     nextID := 3 })).store.rows
        = [{ ID := 1, Email := "a@x.com", Name := "A" }] :=
  ⟨(delete_filters_by_id
      { rows := [{ ID := 1, Email := "a@x.com", Name := "A" },
                 { ID := 2, Email := "b@x.com", Name := "B" }], nextID := 3 }
      (requestWithID "2" "") "2" 2 { ID := 2, Email := "b@x.com", Name := "B" }
      (by decide) (by decide) (by decide) (by decide)).2.2.2.1,
   (delete_filters_by_id
      { rows := [{ ID := 1, Email := "a@x.com", Name := "A" },
                 { ID := 2, Email := "b@x.com", Name := "B" }], nextID := 3 }
      (requestWithID "2" "") "2" 2 { ID := 2, Email := "b@x.com", Name := "B" }
      (by decide) (by decide) (by decide) (by decide)).2.2.2.2⟩

/-! ## Update: order of the checks -/

/-- C8, as stated, fails: `PUT /api/v1/1x` with an empty body, which does not
decode, is answered with `Failed to parse user data`, not with the identifier
failure text. -/
theorem update_bad_id_bad_body_counterexample :
    (serve sampleDecoder (countingStmts (.external "down")) "PUT" "/api/v1/1x" "" 0).map
        (fun c => c.w) = some (badRequestResponse "Failed to parse user data")
      ∧ (serve sampleDecoder (countingStmts (.external "down")) "PUT" "/api/v1/1x" "" 0).map
        (fun c => c.w)
        ≠ some (badRequestResponse "Failed to parse user id (must be an integer)") := by
  decide

/-- C8, amended: `updateUserHandle` decodes the body before it parses the
path identifier.  For a request whose id text `strconv.Atoi` rejects, the
response is 400 in both cases and the store is untouched; the text is the
identifier failure `Failed to parse user id (must be an integer)` when the
body decodes, and `Failed to parse user data` when it does not. -/
theorem update_decodes_body_before_id (dec : Decoder) (S : Stmts σ) (r : Request) (s : σ)
    (id : String) (e : GoError) (hid : r.Vars.lookup "id" = some id)
    (hbad : Atoi id = .error e) :
    (∀ u, dec r.Body = .ok u →
        (updateUserHandle dec S r (Ctx.start s)).w
          = badRequestResponse "Failed to parse user id (must be an integer)")
      ∧ (∀ de, dec r.Body = .error de →
        (updateUserHandle dec S r (Ctx.start s)).w
          = badRequestResponse "Failed to parse user data")
      ∧ (updateUserHandle dec S r (Ctx.start s)).store = s := by
  refine ⟨?_, ?_, ?_⟩
  · intro u hd
    simp [updateUserHandle, hid, hbad, hd, Ctx.Write, Ctx.WriteHeader, Ctx.Println,
      Ctx.start, ResponseWriter.fresh, badRequestResponse]
  · intro de hd
    simp [updateUserHandle, hid, hd, Ctx.Write, Ctx.WriteHeader, Ctx.Println,
      Ctx.start, ResponseWriter.fresh, badRequestResponse]
  · cases hd : dec r.Body <;>
      simp [updateUserHandle, hid, hbad, hd, Ctx.Write, Ctx.WriteHeader, Ctx.Println,
        Ctx.start, ResponseWriter.fresh]

/-- C8, amended, on the path id `1x`: with the decodable sample body the text
is the identifier failure, with the empty body it is the body failure, and
the execution counter of the store stays 0. -/
theorem update_decodes_body_before_id_witness :
    (updateUserHandle sampleDecoder (countingStmts (.external "down"))
        (requestWithID "1x" sampleBody) (Ctx.start 0)).w
        = badRequestResponse "Failed to parse user id (must be an integer)"
      ∧ (updateUserHandle sampleDecoder (countingStmts (.external "down"))
        (requestWithID "1x" "") (Ctx.start 0)).w
        = badRequestResponse "Failed to parse user data"
      ∧ (updateUserHandle sampleDecoder (countingStmts (.external "down"))
        (requestWithID "1x" "") (Ctx.start 0)).store = 0 :=
  ⟨(update_decodes_body_before_id sampleDecoder (countingStmts (.external "down"))
      (requestWithID "1x" sampleBody) 0 "1x" (.numError "1x" false) (by decide) (by decide)).1
      { ID := 0, Email := "a@x.com", Name := "A" } (by decide),
   (update_decodes_body_before_id sampleDecoder (countingStmts (.external "down"))
      (requestWithID "1x" "") 0 "1x" (.numError "1x" false) (by decide) (by decide)).2.1
      (.external "EOF") (by decide),
   (update_decodes_body_before_id sampleDecoder (countingStmts (.external "down"))
      (requestWithID "1x" "") 0 "1x" (.numError "1x" false) (by decide) (by decide)).2.2⟩

/-! ## List: rows that fail to scan -/

/-- C9, as stated, fails: on a cursor of three rows whose second row fails to
scan, `getUserList` returns a nil error and the list of the first and third
user only. -/
theorem getUserList_partial_counterexample :
    cursorWithBadRow.length = 3
      ∧ (getUserList (cannedListStmts cursorWithBadRow) ()).1
        = (some [{ ID := 1, Email := "a@x.com", Name := "A" },
                 { ID := 3, Email := "c@x.com", Name := "C" }], none) := by
  decide

/-- C9, amended: when the query succeeds, `getUserList` returns the users of
exactly the rows whose scan succeeds, in cursor order, with a nil error, and
skips every row whose scan fails; it returns the error `where is no any users`
with a nil list when no row scans successfully. -/
theorem getUserList_returns_scanned_rows (S : Stmts σ) (s s1 : σ)
    (rows : Rows (Int × String × String)) (hq : S.getUserListStmt s = (.ok rows, s1)) :
    (scannedUsers rows ≠ [] → (getUserList S s).1 = (some (scannedUsers rows), none))
      ∧ (scannedUsers rows = [] →
        (getUserList S s).1 = (none, some (.errorsNew "where is no any users"))) := by
  constructor
  · intro h
    simp [getUserList, hq, getUserListLoop_eq, h]
  · intro h
    simp [getUserList, hq, getUserListLoop_eq, h]

/-- C9, amended, on cursors: a cursor whose only row fails to scan gives the
error, and the two-user table gives both users. -/
theorem getUserList_returns_scanned_rows_witness :
    (getUserList (cannedListStmts [.error (.external "bad row")]) ()).1
        = (none, some (.errorsNew "where is no any users"))
      ∧ (getUserList (cannedListStmts [.error (.external "bad row"), .ok (2, "b@x.com", "B")])
          ()).1 = (some [{ ID := 2, Email := "b@x.com", Name := "B" }], none) :=
  ⟨(getUserList_returns_scanned_rows (cannedListStmts [.error (.external "bad row")]) () ()
      [.error (.external "bad row")] rfl).2 (by decide),
   (getUserList_returns_scanned_rows
      (cannedListStmts [.error (.external "bad row"), .ok (2, "b@x.com", "B")]) () ()
      [.error (.external "bad row"), .ok (2, "b@x.com", "B")] rfl).1 (by decide)⟩

/-! ## Get one: the response body -/

theorem jsonString_keys :
    jsonString "id" = "\"id\"" ∧ jsonString "email" = "\"email\""
      ∧ jsonString "name" = "\"name\"" := by
  decide

theorem append3 (a b c d x : String) (h : a ++ b ++ c = d) :
    a ++ (b ++ (c ++ x)) = d ++ x := by
  rw [← h, String.append_assoc, String.append_assoc]

theorem marshalUser_shape (v : userModel) :
    marshalUser v
      = (if v.ID = 0 then "\x7b" else "\x7b\"id\":" ++ formatInt v.ID ++ ",")
        ++ "\"email\":" ++ jsonString v.Email ++ ",\"name\":" ++ jsonString v.Name ++ "\x7d" := by
  obtain ⟨hk1, hk2, hk3⟩ := jsonString_keys
  have a1 := fun x => append3 "\x7b" "\"email\"" ":" "\x7b\"email\":" x (by decide)
  have b1 := fun x => append3 "\x7b" "\"id\"" ":" "\x7b\"id\":" x (by decide)
  have b2 := fun x => append3 "," "\"email\"" ":" ",\"email\":" x (by decide)
  have b3 := fun x => append3 "," "\"name\"" ":" ",\"name\":" x (by decide)
  by_cases h : v.ID = 0
  · simp [marshalUser, jsonObject, userFields, keptFields, h, String.intercalate,
      String.intercalate.go, hk2, hk3, String.append_assoc, a1, b3]
  · simp [marshalUser, jsonObject, userFields, keptFields, h, String.intercalate,
      String.intercalate.go, hk1, hk2, hk3, String.append_assoc, b1, b2, b3]

theorem getUser_id_of_success (S : Stmts σ) (idd : Int) (s : σ) (u : userModel)
    (hg : (getUser S idd s).1 = (some u, none)) : u.ID = idd := by
  unfold getUser at hg
  rcases hq : S.getUserStmt idd s with ⟨res, s1⟩
  rw [hq] at hg
  cases res with
  | error err => simp at hg
  | ok rows =>
    cases rows with
    | nil => simp at hg
    | cons scan rest =>
      cases scan with
      | error err => simp at hg
      | ok row =>
        obtain ⟨email, name⟩ := row
        simp only [Prod.mk.injEq, Option.some.injEq, and_true] at hg
        rw [← hg]

/-- C7, as stated, fails: `GET /api/v1/1` on the table holding the user with
id 1, email `a@x.com` and name `A` writes status 200 with a body that carries
the id field, not the body without it. -/
theorem get_one_body_counterexample :
    (serve sampleDecoder tableStmts "GET" "/api/v1/1" "" oneUserTable).map
        (fun c => (c.w.status, c.w.body))
        = some (some 200, "\x7b\"id\":1,\"email\":\"a@x.com\",\"name\":\"A\"\x7d")
      ∧ (serve sampleDecoder tableStmts "GET" "/api/v1/1" "" oneUserTable).map
        (fun c => c.w.body) ≠ some "\x7b\"email\":\"a@x.com\",\"name\":\"A\"\x7d" := by
  decide

/-- C7, amended: a get-one request whose path id reads as the integer `idd`
and for which `getUser` succeeds with the user `u` writes status 200 and the
body `json.Marshal(u)`, where `u.ID` is `idd`; and the JSON text of any user is
an object with the fields id, email, name in that order in which id is left
out exactly when it is zero.  So the body for the stored user with id 1 is
the object with `"id":1`, email and name. -/
theorem get_one_writes_user_json (S : Stmts σ) (r : Request) (s : σ) (id : String)
    (idd : Int) (u : userModel) (hid : r.Vars.lookup "id" = some id) (ha : Atoi id = .ok idd)
    (hg : (getUser S idd s).1 = (some u, none)) :
    (getUserHandle S r (Ctx.start s)).w.status = some 200
      ∧ (getUserHandle S r (Ctx.start s)).w.body = marshalUser u
      ∧ u.ID = idd
      ∧ (∀ v : userModel, marshalUser v
          = (if v.ID = 0 then "\x7b" else "\x7b\"id\":" ++ formatInt v.ID ++ ",")
            ++ "\"email\":" ++ jsonString v.Email ++ ",\"name\":" ++ jsonString v.Name
            ++ "\x7d") := by
  refine ⟨?_, ?_, getUser_id_of_success S idd s u hg, marshalUser_shape⟩
  · rcases hc : getUser S idd s with ⟨⟨ou, oe⟩, s1⟩
    rw [hc] at hg
    simp only [Prod.mk.injEq] at hg
    obtain ⟨h1, h2⟩ := hg
    subst h1 h2
    simp [getUserHandle, hid, ha, hc, Ctx.start, Ctx.Write, Ctx.WriteHeader, Ctx.HeaderAdd,
      Ctx.Printf, ResponseWriter.fresh, StatusOK]
  · rcases hc : getUser S idd s with ⟨⟨ou, oe⟩, s1⟩
    rw [hc] at hg
    simp only [Prod.mk.injEq] at hg
    obtain ⟨h1, h2⟩ := hg
    subst h1 h2
    simp [getUserHandle, hid, ha, hc, Ctx.start, Ctx.Write, Ctx.WriteHeader, Ctx.HeaderAdd,
      Ctx.Printf, ResponseWriter.fresh, StatusOK]

/-- C7, amended, on the one-user table: the get-one request for path id `1`
writes 200 and the object with `"id":1`, and the user with id 0 is written
without the id field. -/
theorem get_one_writes_user_json_witness :
    (getUserHandle tableStmts (requestWithID "1" "") (Ctx.start oneUserTable)).w.status
        = some 200
      ∧ (getUserHandle tableStmts (requestWithID "1" "") (Ctx.start oneUserTable)).w.body
        = marshalUser { ID := 1, Email := "a@x.com", Name := "A" }
      ∧ marshalUser { ID := 1, Email := "a@x.com", Name := "A" }
        = "\x7b\"id\":1,\"email\":\"a@x.com\",\"name\":\"A\"\x7d"
      ∧ marshalUser { ID := 0, Email := "a@x.com", Name := "A" }
        = "\x7b\"email\":\"a@x.com\",\"name\":\"A\"\x7d" :=
  ⟨(get_one_writes_user_json tableStmts (requestWithID "1" "") oneUserTable "1" 1
      { ID := 1, Email := "a@x.com", Name := "A" } (by decide) (by decide) (by decide)).1,
   (get_one_writes_user_json tableStmts (requestWithID "1" "") oneUserTable "1" 1
      { ID := 1, Email := "a@x.com", Name := "A" } (by decide) (by decide) (by decide)).2.1,
   by decide, by decide⟩

/-! ## Startup: preparing the statements -/

/-- C10: `mustPrepareStmts` hands the templates to the store in the order
create, get-by-id, list-all, update, delete.  It returns normally exactly when
all five compile, and then all five were handed over in that order and every
variable holds its handle.  If the first `k` compile and the next one fails
with `e`, it panics with `e`, exactly the first `k + 1` templates were handed
to the store, the first `k` variables hold their handles, the failing one is
nil, and every later variable is as it was before the call. -/
theorem mustPrepareStmts_fail_fast {H : Type} (db : String → Except GoError H)
    (st : Startup H) :
    ((mustPrepareStmts db st).1 = none ↔ ∀ tpl ∈ templateOrder, ∃ h, db tpl = .ok h)
      ∧ ((mustPrepareStmts db st).1 = none →
        (mustPrepareStmts db st).2.prepared = st.prepared ++ templateOrder
          ∧ (mustPrepareStmts db st).2.globals.toList = templateOrder.map (handleOf db))
      ∧ (∀ k tpl e, templateOrder.get? k = some tpl →
        (∀ t ∈ templateOrder.take k, ∃ h, db t = .ok h) → db tpl = .error e →
        (mustPrepareStmts db st).1 = some e
          ∧ (mustPrepareStmts db st).2.prepared = st.prepared ++ templateOrder.take (k + 1)
          ∧ (mustPrepareStmts db st).2.globals.toList
            = (templateOrder.take k).map (handleOf db)
              ++ none :: st.globals.toList.drop (k + 1)) := by
  refine ⟨?_, ?_, ?_⟩
  · rcases h1 : db createUserTpl with e1 | a1 <;> rcases h2 : db getUserTpl with e2 | a2 <;>
      rcases h3 : db getUserListTpl with e3 | a3 <;>
      rcases h4 : db updateUserTpl with e4 | a4 <;>
      rcases h5 : db deleteUserTpl with e5 | a5 <;>
      simp [mustPrepareStmts, PrepareContext, templateOrder, h1, h2, h3, h4, h5]
  · rcases h1 : db createUserTpl with e1 | a1 <;> rcases h2 : db getUserTpl with e2 | a2 <;>
      rcases h3 : db getUserListTpl with e3 | a3 <;>
      rcases h4 : db updateUserTpl with e4 | a4 <;>
      rcases h5 : db deleteUserTpl with e5 | a5 <;>
      simp [mustPrepareStmts, PrepareContext, templateOrder, Globals.toList, handleOf,
        h1, h2, h3, h4, h5]
  · intro k tpl e hk hpre hfail
    have hlt : k < 5 := by
      by_contra hge
      have : templateOrder.get? k = none := by
        apply List.get?_eq_none.mpr
        simp only [templateOrder, List.length_cons, List.length_nil]
        omega
      rw [this] at hk
      exact Option.noConfusion hk
    interval_cases k
    · simp only [templateOrder, List.get?_cons_zero, Option.some.injEq] at hk
      subst hk
      simp [mustPrepareStmts, PrepareContext, templateOrder, Globals.toList, handleOf, hfail]
    · simp only [templateOrder, List.get?_cons_succ, List.get?_cons_zero,
        Option.some.injEq] at hk
      subst hk
      simp only [templateOrder, List.take, List.mem_cons, List.mem_singleton,
        List.not_mem_nil, or_false, forall_eq_or_imp, forall_eq] at hpre
      obtain ⟨a1, h1⟩ := hpre
      simp [mustPrepareStmts, PrepareContext, templateOrder, Globals.toList, handleOf, hfail,
        h1]
    · simp only [templateOrder, List.get?_cons_succ, List.get?_cons_zero,
        Option.some.injEq] at hk
      subst hk
      simp only [templateOrder, List.take, List.mem_cons, List.mem_singleton,
        List.not_mem_nil, or_false, forall_eq_or_imp, forall_eq] at hpre
      obtain ⟨⟨a1, h1⟩, a2, h2⟩ := hpre
      simp [mustPrepareStmts, PrepareContext, templateOrder, Globals.toList, handleOf, hfail,
        h1, h2]
    · simp only [templateOrder, List.get?_cons_succ, List.get?_cons_zero,
        Option.some.injEq] at hk
      subst hk
      simp only [templateOrder, List.take, List.mem_cons, List.mem_singleton,
        List.not_mem_nil, or_false, forall_eq_or_imp, forall_eq] at hpre
      obtain ⟨⟨a1, h1⟩, ⟨a2, h2⟩, a3, h3⟩ := hpre
      simp [mustPrepareStmts, PrepareContext, templateOrder, Globals.toList, handleOf, hfail,
        h1, h2, h3]
    · simp only [templateOrder, List.get?_cons_succ, List.get?_cons_zero,
        Option.some.injEq] at hk
      subst hk
      simp only [templateOrder, List.take, List.mem_cons, List.mem_singleton,
        List.not_mem_nil, or_false, forall_eq_or_imp, forall_eq] at hpre
      obtain ⟨⟨a1, h1⟩, ⟨a2, h2⟩, ⟨a3, h3⟩, a4, h4⟩ := hpre
      simp [mustPrepareStmts, PrepareContext, templateOrder, Globals.toList, handleOf, hfail,
        h1, h2, h3, h4]

/-- C10, on a fresh process whose store rejects only the update template:
the panic value is the error of that preparation, the store received the
first four templates and never the delete template, the first three
variables hold handles, and the update and delete variables are nil.  On a
store that rejects nothing the call returns normally. -/
theorem mustPrepareStmts_fail_fast_witness :
    (mustPrepareStmts (rejecting [updateUserTpl]) (Startup.fresh String)).1
        = some (.external ("cannot prepare: " ++ updateUserTpl))
      ∧ (mustPrepareStmts (rejecting [updateUserTpl]) (Startup.fresh String)).2.prepared
        = [createUserTpl, getUserTpl, getUserListTpl, updateUserTpl]
      ∧ (mustPrepareStmts (rejecting [updateUserTpl]) (Startup.fresh String)).2.globals.toList
        = [some createUserTpl, some getUserTpl, some getUserListTpl, none, none]
      ∧ (mustPrepareStmts (rejecting []) (Startup.fresh String)).1 = none :=
  have hfail := (mustPrepareStmts_fail_fast (rejecting [updateUserTpl])
    (Startup.fresh String)).2.2 3 updateUserTpl
    (.external ("cannot prepare: " ++ updateUserTpl)) (by decide)
    (by
      intro t ht
      simp only [templateOrder, List.take, List.mem_cons, List.mem_singleton,
        List.not_mem_nil, or_false] at ht
      rcases ht with rfl | rfl | rfl
      · exact ⟨createUserTpl, by decide⟩
      · exact ⟨getUserTpl, by decide⟩
      · exact ⟨getUserListTpl, by decide⟩)
    (by decide)
  ⟨hfail.1, hfail.2.1, hfail.2.2,
   (mustPrepareStmts_fail_fast (rejecting []) (Startup.fresh String)).1.mpr
    (by
      intro t _
      exact ⟨t, rfl⟩)⟩

end UsersApp
